/-
Verification of the NetVision measurement scoring and session engine.

This file shallowly embeds the quality-scoring module
(src/Utils/qualityScore.js), the message generator
(src/Utils/messageGenerator.js), the best-zone resolvers
(controllers/ConnecitivityController.js and
websocket/measurementHandler.js) and the per-connection session engine
(websocket/measurementHandler.js) into Lean.  JS numbers are modelled as
exact rationals; JS `undefined` as `Option.none`; the external record
store, auth collaborator and trigonometric geodesy functions as
parameters of an `Env` structure.
-/
import Mathlib

namespace NetVision

/-! ## JS numeric primitives -/

/-- JS `Math.round`: round half toward positive infinity. -/
def jsRound (q : ℚ) : ℤ := ⌊q + 1/2⌋

/-- JS `x.toFixed(2)` followed by `parseFloat`: round to two decimal
digits, ties toward the larger value (ECMAScript `toFixed`). -/
def jsToFixed2 (q : ℚ) : ℚ := (⌊100 * q + 1/2⌋ : ℚ) / 100

/-- JS `x || d` on an optional number: `undefined` and `0` are falsy. -/
def jsOrQ (x : Option ℚ) (d : ℚ) : ℚ :=
  match x with
  | none => d
  | some q => if q = 0 then d else q

/-- JS `x < c` where `x` may be `undefined`: a comparison against
`undefined` is always false. -/
def jsLtO (x : Option ℚ) (c : ℚ) : Bool :=
  match x with
  | none => false
  | some q => decide (q < c)

/-- JS `x > c` where `x` may be `undefined`. -/
def jsGtO (x : Option ℚ) (c : ℚ) : Bool :=
  match x with
  | none => false
  | some q => decide (c < q)

/-! ## Quality scoring module (src/Utils/qualityScore.js)

Constants from src/config/constants.js: SINR_WEIGHT = 0.5,
CQI_WEIGHT = 0.3, RSRQ_WEIGHT = 0.2, MIN_SCORE = 0, MAX_SCORE = 100. -/

/-- `calculateQualityScore(rsrq, sinr, cqi)` from qualityScore.js.
`none` stands for a non-number argument; a thrown `Error` is an
`Except.error` carrying the message. -/
def calculateQualityScore (rsrq sinr cqi : Option ℚ) : Except String ℤ :=
  match rsrq, sinr, cqi with
  | some r, some s, some c =>
    if r < -20 ∨ -3 < r then .error "RSRQ out of range: -20 to -3"
    else if s < -10 ∨ 30 < s then .error "SINR out of range: -10 to 30"
    else if c < 0 ∨ 15 < c then .error "CQI out of range: 0 to 15"
    else
      let sinrScore := s * (1/2)
      let cqiScore := c / 15 * 100 * (3/10)
      let rsrqScore := |r| * (1/5)
      let score := sinrScore + cqiScore - rsrqScore
      .ok (jsRound (max 0 (min 100 score)))
  | _, _, _ => .error "Invalid radio metrics - must be numbers"

/-- Total extractor for a score result (0 when an error was thrown). -/
def okD (e : Except String ℤ) : ℤ :=
  match e with
  | .ok z => z
  | .error _ => 0

/-- `getSignalQuality(score)` from qualityScore.js, thresholds from
constants.js SIGNAL_QUALITY. -/
def getSignalQuality (score : ℤ) : String :=
  if 80 ≤ score then "Excellent"
  else if 60 ≤ score then "Good"
  else if 40 ≤ score then "Fair"
  else if 20 ≤ score then "Poor"
  else "Very Poor"

/-- The weighted-and-clamped score expression of the success branch of
`calculateQualityScore`, named so theorems can speak about it. -/
def rawScore (r s c : ℚ) : ℤ :=
  jsRound (max 0 (min 100 (s * (1/2) + c / 15 * 100 * (3/10) - |r| * (1/5))))

/-- The spec formula for `scoreCellular`:
`round(clamp(0.5*sinr + 0.3*((cqi/15)*100) - 0.2*|rsrq|, 0, 100))`,
written from the spec text for comparison with the code. -/
def scoreCellularSpec (rsrq sinr cqi : ℚ) : ℤ :=
  jsRound (max 0 (min 100 (1/2 * sinr + 3/10 * (cqi / 15 * 100) - 1/5 * |rsrq|)))

/-! ## Message generator (src/Utils/messageGenerator.js) -/

/-- `generateHumanMessage(qualityScore, rsrq, sinr, cqi)` from
messageGenerator.js: joins clause strings with ". " and a final ".". -/
def generateHumanMessage (qualityScore : ℤ) (rsrq sinr cqi : ℚ) : String :=
  let quality :=
    if 80 ≤ qualityScore then "Your connection is excellent"
    else if 60 ≤ qualityScore then "Your connection is good"
    else if 40 ≤ qualityScore then "Your connection is fair"
    else if 20 ≤ qualityScore then "Your connection is poor"
    else "Your connection is very poor"
  let signal :=
    if |rsrq| < 10 then "Signal strength is strong"
    else if |rsrq| < 15 then "Signal strength is moderate"
    else "Signal strength is weak"
  let noise :=
    if 10 < sinr then "Noise levels are low"
    else if 0 < sinr then "Noise levels are moderate"
    else "Noise levels are high"
  let channel :=
    if 12 ≤ cqi then "Channel quality is excellent"
    else if 8 ≤ cqi then "Channel quality is good"
    else if 4 ≤ cqi then "Channel quality is fair"
    else "Channel quality is poor"
  let advice : List String :=
    if qualityScore < 40 then
      (if sinr < 0 then ["Consider moving to reduce interference"] else []) ++
      (if 12 < |rsrq| then ["Try getting closer to a cell tower"] else [])
    else if 80 ≤ qualityScore then ["This is a great location for connectivity"]
    else []
  String.intercalate ". " ([quality, signal, noise, channel] ++ advice) ++ "."

/-! ## Geodesy module

The file src/utils/geoUtils.js is not present in the repository snapshot
(only its unit tests and its callers are), so the pure helpers below are
modelled from the spec, and the two trigonometric functions
(`calculateDistance`, `calculateBearing`) are abstracted as parameters of
the environment `Env` further down. -/

/-- Modelled from the spec: `isValidCoordinate(lat, lon)` of the missing
geoUtils.js — true iff both values are present (numbers) and
lat ∈ [-90,90], lon ∈ [-180,180] inclusive. -/
def isValidCoordinate (lat lon : Option ℚ) : Bool :=
  match lat, lon with
  | some la, some lo =>
    decide (-90 ≤ la ∧ la ≤ 90 ∧ -180 ≤ lo ∧ lo ≤ 180)
  | _, _ => false

/-- The 16 compass sector labels, clockwise from north. -/
def compassLabels : List String :=
  ["N", "NNE", "NE", "ENE", "E", "ESE", "SE", "SSE",
   "S", "SSW", "SW", "WSW", "W", "WNW", "NW", "NNW"]

/-- Modelled from the spec: `getCompassDirection(bearing)` of the missing
geoUtils.js — reduce the bearing modulo 360 and pick the 22.5°-wide
sector centred on each label. -/
def getCompassDirection (bearing : ℤ) : String :=
  let b : ℚ := ((bearing % 360 : ℤ) : ℚ)
  let idx := (jsRound (b / (45/2))) % 16
  compassLabels.getD idx.toNat "N"

/-- Two-decimal rendering of a rational, used by `formatDistance` for the
kilometre case (JS `toFixed(2)` on a nonnegative value). -/
def twoDecimalString (q : ℚ) : String :=
  let n := ⌊100 * q + 1/2⌋
  let frac := (n % 100).natAbs
  toString (n / 100) ++ "." ++
    (if frac < 10 then "0" ++ toString frac else toString frac)

/-- Modelled from the spec: `formatDistance(meters)` of the missing
geoUtils.js — below 1000 m, rounded integer metres with suffix " m";
at or above, kilometres with exactly two decimals and suffix " km". -/
def formatDistance (meters : ℚ) : String :=
  if meters < 1000 then toString (jsRound meters) ++ " m"
  else twoDecimalString (meters / 1000) ++ " km"

/-! ## Session engine data model (src/websocket/measurementHandler.js) -/

/-- A document returned by the record store query (`ConnectivityData`
with `location.coordinates = [lon, lat]` and a `qualityScore`). -/
structure StoreRecord where
  lat : ℚ
  lon : ℚ
  qualityScore : ℚ
deriving DecidableEq, Repr

/-- A document handed to the record store batch insert: the object built
in `handleStop`'s `measurements.map`. -/
structure DBRecord where
  lon : ℚ
  lat : ℚ
  qualityScore : ℤ
  rsrq : ℚ
  sinr : ℚ
  cqi : ℚ
  downloadSpeed : ℚ
  uploadSpeed : ℚ
  timestamp : ℚ
deriving DecidableEq, Repr

/-- One entry of the in-memory accumulator `measurements`, exactly the
object pushed in `handleMeasurement`. -/
structure Meas where
  rsrq : ℚ
  sinr : ℚ
  cqi : ℚ
  latitude : ℚ
  longitude : ℚ
  qualityScore : ℤ
  downloadSpeed : ℚ
  uploadSpeed : ℚ
  timestamp : ℚ
deriving DecidableEq, Repr

/-- The record-store document built from an accumulator entry in
`handleStop`. -/
def toDBRecord (m : Meas) : DBRecord :=
  { lon := m.longitude, lat := m.latitude, qualityScore := m.qualityScore,
    rsrq := m.rsrq, sinr := m.sinr, cqi := m.cqi,
    downloadSpeed := m.downloadSpeed, uploadSpeed := m.uploadSpeed,
    timestamp := m.timestamp }

/-- A call made to the record-store collaborator, logged by the step
function so that theorems can speak about which calls happened. -/
inductive StoreCall where
  | findBestNearby (userId : String) (lat lon radius : ℚ)
  | insertMany (userId : String) (records : List DBRecord)
deriving DecidableEq, Repr

/-- External collaborators and ambient inputs: the record store, the
auth collaborator (`jwt.verify` + `User.findById`), the clock, and the
two trigonometric geodesy functions of the missing geoUtils.js. -/
structure Env where
  now : ℚ
  verify : String → Except String String
  findBestNearby : String → ℚ → ℚ → ℚ → Except String (Option StoreRecord)
  insertMany : String → List DBRecord → Except String (List DBRecord)
  calculateDistance : ℚ → ℚ → ℚ → ℚ → ℚ
  calculateBearing : ℚ → ℚ → ℚ → ℚ → ℤ

/-- The best-zone object built by `findBestNearbyZone` in
measurementHandler.js when a match exists. -/
structure BestZone where
  bearing : ℤ
  direction : String
  distance : ℤ
  distanceFormatted : String
  qualityScore : ℚ
  recommendation : String
deriving DecidableEq, Repr

/-- The `bestZone` field of a measurement response:
`bestZone || { hasData: false }`. -/
inductive BZField where
  | noData
  | found (bz : BestZone)
deriving DecidableEq, Repr

/-- The echoed `metrics` object of a measurement response. -/
structure EchoMetrics where
  rsrq : ℚ
  sinr : ℚ
  cqi : ℚ
  downloadSpeed : ℚ
  uploadSpeed : ℚ
deriving DecidableEq, Repr

/-- Messages the handler sends to the client (fields relevant to the
session protocol; purely informational timestamps are omitted). -/
inductive ServerMsg where
  | errorMsg (message : String)
  | authenticated (userId : String)
  | measurementResponse (qualityScore : ℤ) (humanMessage : String)
      (bestZone : BZField) (metrics : EchoMetrics)
  | sessionSummary (measurementCount : ℕ) (sessionDuration : ℤ)
      (averageQuality : ℤ)
      (averageRsrq averageSinr averageCqi
       averageDownloadSpeed averageUploadSpeed : ℚ)
      (savedCount : ℕ)
  | pong
deriving DecidableEq, Repr

/-- The `bestZone || \x7b hasData: false \x7d` idiom of the measurement
response. -/
def bzFieldOf (o : Option BestZone) : BZField :=
  match o with
  | none => BZField.noData
  | some bz => BZField.found bz

/-- The fields of a parsed `measurement` message; `none` models an
absent (`undefined`) field. -/
structure MeasurementData where
  rsrq : Option ℚ
  sinr : Option ℚ
  cqi : Option ℚ
  latitude : Option ℚ
  longitude : Option ℚ
  downloadSpeed : Option ℚ
  uploadSpeed : Option ℚ
  timestamp : Option ℚ
deriving DecidableEq, Repr

/-- A parsed client message, by its `type` field. -/
inductive ClientMsg where
  | authenticate (token : Option String)
  | measurement (d : MeasurementData)
  | stop
  | ping
  | other (ty : String)
deriving DecidableEq, Repr

/-- The per-connection mutable state of `handleConnection`: the bound
`userId`, the accumulator `measurements`, and `sessionStartTime`. -/
structure SessionState where
  userId : Option String
  measurements : List Meas
  startedAt : ℚ
deriving DecidableEq, Repr

/-- Everything one incoming message produces: the next state, the
messages sent, the record-store calls made, and the close code if the
handler closed the connection. -/
structure StepOut where
  state : SessionState
  sent : List ServerMsg
  calls : List StoreCall
  closeCode : Option ℤ
deriving DecidableEq, Repr

/-! ## Session engine operations -/

/-- `authenticateClient(token)` from measurementHandler.js: missing or
empty token is rejected up front; otherwise the auth collaborator
resolves the token to a user id or fails. -/
def authenticateClient (env : Env) (token : Option String) : Except String String :=
  match token with
  | none => .error "Token required"
  | some t => if t = "" then .error "Token required" else env.verify t

/-- `findBestNearbyZone(userId, latitude, longitude)` from
measurementHandler.js: query the record store within the default
5000 m radius; any store failure is caught and yields `none`. -/
def findBestNearbyZone (env : Env) (userId : String) (lat lon : ℚ) :
    Option BestZone × List StoreCall :=
  let call := StoreCall.findBestNearby userId lat lon 5000
  match env.findBestNearby userId lat lon 5000 with
  | .error _ => (none, [call])
  | .ok none => (none, [call])
  | .ok (some rec) =>
    let distance := env.calculateDistance lat lon rec.lat rec.lon
    let bearing := env.calculateBearing lat lon rec.lat rec.lon
    let direction := getCompassDirection bearing
    (some { bearing := bearing, direction := direction,
            distance := jsRound distance,
            distanceFormatted := formatDistance distance,
            qualityScore := rec.qualityScore,
            recommendation :=
              "Move " ++ direction ++ " (" ++ toString bearing ++
              "°) for better signal" },
     [call])

/-- The accumulator entry `handleMeasurement` pushes for a valid
measurement whose coordinate is (la, lo) and radio metrics (r, s, c). -/
def measOf (env : Env) (d : MeasurementData) (la lo r s c : ℚ) : Meas :=
  { rsrq := r, sinr := s, cqi := c, latitude := la, longitude := lo,
    qualityScore := rawScore r s c,
    downloadSpeed := jsOrQ d.downloadSpeed 0,
    uploadSpeed := jsOrQ d.uploadSpeed 0,
    timestamp := jsOrQ d.timestamp env.now }

/-- `handleMeasurement(ws, userId, data, sessionId, measurements)` from
measurementHandler.js.  An `Except.error` is the exception thrown by
`calculateQualityScore` propagating out of the handler (the only
statement that can throw before any push or store call). -/
def handleMeasurement (env : Env) (userId : String) (d : MeasurementData)
    (ms : List Meas) :
    Except String (List Meas × List ServerMsg × List StoreCall) :=
  if isValidCoordinate d.latitude d.longitude = false then
    .ok (ms, [.errorMsg "Invalid coordinates"], [])
  else if jsLtO d.rsrq (-20) || jsGtO d.rsrq (-3) ||
          jsLtO d.sinr (-10) || jsGtO d.sinr 30 ||
          jsLtO d.cqi 0 || jsGtO d.cqi 15 then
    .ok (ms, [.errorMsg "Invalid radio metrics"], [])
  else
    match calculateQualityScore d.rsrq d.sinr d.cqi with
    | .error e => .error e
    | .ok q =>
      let rsrq := d.rsrq.getD 0
      let sinr := d.sinr.getD 0
      let cqi := d.cqi.getD 0
      let lat := d.latitude.getD 0
      let lon := d.longitude.getD 0
      let humanMessage := generateHumanMessage q rsrq sinr cqi
      let m : Meas :=
        { rsrq := rsrq, sinr := sinr, cqi := cqi,
          latitude := lat, longitude := lon, qualityScore := q,
          downloadSpeed := jsOrQ d.downloadSpeed 0,
          uploadSpeed := jsOrQ d.uploadSpeed 0,
          timestamp := jsOrQ d.timestamp env.now }
      let ms2 := ms ++ [m]
      let bzc := findBestNearbyZone env userId lat lon
      let bestZone := bzFieldOf bzc.1
      .ok (ms2,
           [.measurementResponse q humanMessage bestZone
              { rsrq := rsrq, sinr := sinr, cqi := cqi,
                downloadSpeed := jsOrQ d.downloadSpeed 0,
                uploadSpeed := jsOrQ d.uploadSpeed 0 }],
           bzc.2)

/-- `handleStop(ws, userId, data, sessionId, measurements,
sessionStartTime)` from measurementHandler.js.  Its internal try/catch
means it never throws: a failing batch insert becomes an error message. -/
def handleStop (env : Env) (userId : String) (ms : List Meas)
    (startedAt : ℚ) : List ServerMsg × List StoreCall :=
  if ms.length = 0 then
    ([.errorMsg "No measurements recorded"], [])
  else
    let records := ms.map toDBRecord
    match env.insertMany userId records with
    | .error e =>
      ([.errorMsg ("Failed to save measurements: " ++ e)],
       [.insertMany userId records])
    | .ok saved =>
      let n : ℚ := ms.length
      let sessionDuration := jsRound ((env.now - startedAt) / 1000)
      let avgQuality :=
        jsRound ((ms.map fun m => (m.qualityScore : ℚ)).sum / n)
      let avgRsrq := jsToFixed2 ((ms.map fun m => m.rsrq).sum / n)
      let avgSinr := jsToFixed2 ((ms.map fun m => m.sinr).sum / n)
      let avgCqi := jsToFixed2 ((ms.map fun m => m.cqi).sum / n)
      let avgDownloadSpeed :=
        jsToFixed2 ((ms.map fun m => m.downloadSpeed).sum / n)
      let avgUploadSpeed :=
        jsToFixed2 ((ms.map fun m => m.uploadSpeed).sum / n)
      ([.sessionSummary ms.length sessionDuration avgQuality
          avgRsrq avgSinr avgCqi avgDownloadSpeed avgUploadSpeed
          saved.length],
       [.insertMany userId records])

/-- One turn of the `ws.on` message listener in `handleConnection`:
the authentication gate, the message-type switch, and the surrounding
try/catch that turns a thrown exception into a
"Failed to process message" error. -/
def stepMessage (env : Env) (st : SessionState) (msg : ClientMsg) : StepOut :=
  match st.userId with
  | none =>
    match msg with
    | .authenticate token =>
      match authenticateClient env token with
      | .ok uid =>
        { state := { st with userId := some uid },
          sent := [.authenticated uid], calls := [], closeCode := none }
      | .error e =>
        { state := st,
          sent := [.errorMsg (if e = "" then "Authentication failed" else e)],
          calls := [], closeCode := some 4001 }
    | _ =>
      { state := st,
        sent := [.errorMsg
          "Please authenticate first by sending \x7b type: \"authenticate\", token: \"YOUR_JWT_TOKEN\" \x7d"],
        calls := [], closeCode := none }
  | some uid =>
    match msg with
    | .measurement d =>
      match handleMeasurement env uid d st.measurements with
      | .ok (ms2, sent, calls) =>
        { state := { st with measurements := ms2 },
          sent := sent, calls := calls, closeCode := none }
      | .error e =>
        { state := st,
          sent := [.errorMsg ("Failed to process message: " ++ e)],
          calls := [], closeCode := none }
    | .stop =>
      let (sent, calls) := handleStop env uid st.measurements st.startedAt
      { state := { st with measurements := [] },
        sent := sent, calls := calls, closeCode := none }
    | .ping =>
      { state := st, sent := [.pong], calls := [], closeCode := none }
    | .authenticate _ =>
      { state := st,
        sent := [.errorMsg "Unknown message type: authenticate"],
        calls := [], closeCode := none }
    | .other ty =>
      { state := st,
        sent := [.errorMsg ("Unknown message type: " ++ ty)],
        calls := [], closeCode := none }

/-! ## HTTP best-zone resolver
(src/controllers/ConnecitivityController.js) -/

/-- The object `findBestZoneHelper` returns when a match exists.  The
degree sign in its recommendation is the mojibake two-character sequence
present verbatim in the source file. -/
structure HttpFound where
  bearing : ℤ
  bearingDirection : String
  distance : ℚ
  distanceFormatted : String
  qualityScore : ℚ
  locationLat : ℚ
  locationLon : ℚ
  recommendation : String
deriving DecidableEq, Repr

/-- Result of `findBestZoneHelper`: `hasData:false` or a found zone. -/
inductive HttpZone where
  | noData
  | found (z : HttpFound)
deriving DecidableEq, Repr

/-- `findBestZoneHelper(userId, latitude, longitude, radiusMeters)` from
ConnecitivityController.js: clamp the radius to 50000 m, query the
record store, and either report `hasData:false` or derive
bearing/direction/distance and the recommendation text.  A store
failure propagates (`Except.error`) to the calling route handler. -/
def findBestZoneHelper (env : Env) (userId : String) (lat lon : ℚ)
    (radiusMeters : ℚ) : Except String HttpZone × List StoreCall :=
  let radius := min radiusMeters 50000
  let call := StoreCall.findBestNearby userId lat lon radius
  match env.findBestNearby userId lat lon radius with
  | .error e => (.error e, [call])
  | .ok none => (.ok .noData, [call])
  | .ok (some rec) =>
    let distance := env.calculateDistance lat lon rec.lat rec.lon
    let bearing := env.calculateBearing lat lon rec.lat rec.lon
    let direction := getCompassDirection bearing
    (.ok (.found
      { bearing := bearing, bearingDirection := direction,
        distance := distance,
        distanceFormatted := formatDistance distance,
        qualityScore := rec.qualityScore,
        locationLat := rec.lat, locationLon := rec.lon,
        recommendation :=
          "Move " ++ direction ++ " (" ++ toString bearing ++
          "Â°) for " ++
          (if 100 < distance then formatDistance distance else "nearby") ++
          " better signal" }),
     [call])

/-! ## Observers and concrete instances used to exercise the model -/

/-- `true` on a successful score, `false` when the function threw. -/
def isOkB (e : Except String ℤ) : Bool :=
  match e with
  | .ok _ => true
  | .error _ => false

/-- Whether a server message is an `error`-typed response. -/
def isErrMsg (m : ServerMsg) : Bool :=
  match m with
  | .errorMsg _ => true
  | _ => false

/-- The `averageRsrq` statistic of a sent session summary, if the sent
list is exactly one summary. -/
def summaryAvgRsrq (sent : List ServerMsg) : Option ℚ :=
  match sent with
  | [.sessionSummary _ _ _ avgRsrq _ _ _ _ _] => some avgRsrq
  | _ => none

/-- `t` occurs as a substring of `s`. -/
def containsStr (s t : String) : Prop := t.data <:+: s.data

/-- The recommendation text of a websocket best-zone result. -/
def wsRecommendationOf (o : Option BestZone) : Option String :=
  match o with
  | some bz => some bz.recommendation
  | none => none

/-- A stored record used to exercise the resolvers: a spot at (1,2)
with quality score 77. -/
def demoRecord : StoreRecord := { lat := 1, lon := 2, qualityScore := 77 }

/-- An environment whose record store finds `demoRecord` 250 m away at
bearing 45°, accepts every batch insert, and accepts the token "good". -/
def envDemo : Env :=
  { now := 1000,
    verify := fun t => if t = "good" then .ok "user1" else .error "User not found",
    findBestNearby := fun _ _ _ _ => .ok (some demoRecord),
    insertMany := fun _ rs => .ok rs,
    calculateDistance := fun _ _ _ _ => 250,
    calculateBearing := fun _ _ _ _ => 45 }

/-- Like `envDemo` but the record store has no nearby match. -/
def envEmptyStore : Env :=
  { envDemo with findBestNearby := fun _ _ _ _ => .ok none }

/-- Like `envDemo` but every record-store operation fails. -/
def envFailStore : Env :=
  { envDemo with
    findBestNearby := fun _ _ _ _ => .error "db down",
    insertMany := fun _ _ => .error "db down" }

/-- An accumulator entry with score 23 (rsrq −10, sinr 10, cqi 10). -/
def m23 : Meas :=
  { rsrq := -10, sinr := 10, cqi := 10, latitude := 0, longitude := 0,
    qualityScore := 23, downloadSpeed := 0, uploadSpeed := 0, timestamp := 0 }

/-- An authenticated session with an empty accumulator. -/
def stAuth : SessionState :=
  { userId := some "user1", measurements := [], startedAt := 0 }

/-- An authenticated session holding three measurements whose rsrq
values are −10, −10, −11 (mean −31/3, not a two-decimal rational). -/
def stThree : SessionState :=
  { userId := some "user1",
    measurements := [m23, m23, { m23 with rsrq := -11 }],
    startedAt := 0 }

/-- An authenticated session holding one measurement. -/
def stOne : SessionState :=
  { userId := some "user1", measurements := [m23], startedAt := 0 }

/-- A fresh, unauthenticated session. -/
def stNew : SessionState :=
  { userId := none, measurements := [], startedAt := 0 }

/-- A well-formed measurement message (score 23). -/
def dGood : MeasurementData :=
  { rsrq := some (-10), sinr := some 10, cqi := some 10,
    latitude := some 0, longitude := some 0,
    downloadSpeed := none, uploadSpeed := none, timestamp := none }

/-- A measurement message with a valid coordinate whose `rsrq` field is
absent. -/
def dNoRsrq : MeasurementData :=
  { dGood with rsrq := none }

/-! ## Shared lemmas about the primitives -/

theorem jsRound_mono {x y : ℚ} (h : x ≤ y) : jsRound x ≤ jsRound y :=
  Int.floor_le_floor (by linarith)

theorem jsRound_nonneg {x : ℚ} (h : 0 ≤ x) : 0 ≤ jsRound x :=
  Int.le_floor.mpr (by push_cast; linarith)

theorem jsRound_le_of_le {x : ℚ} (h : x ≤ 100) : jsRound x ≤ 100 := by
  have : jsRound x < 101 := Int.floor_lt.mpr (by push_cast; linarith)
  omega

/-- Unfolding of `calculateQualityScore` on in-range numeric inputs:
no error branch fires and the weighted formula is returned. -/
theorem calculateQualityScore_ok (r s c : ℚ)
    (hr1 : -20 ≤ r) (hr2 : r ≤ -3) (hs1 : -10 ≤ s) (hs2 : s ≤ 30)
    (hc1 : 0 ≤ c) (hc2 : c ≤ 15) :
    calculateQualityScore (some r) (some s) (some c) = .ok (rawScore r s c) := by
  simp only [calculateQualityScore, rawScore]
  rw [if_neg (by push_neg; constructor <;> linarith),
      if_neg (by push_neg; constructor <;> linarith),
      if_neg (by push_neg; constructor <;> linarith)]

/-- Behaviour of `handleMeasurement` on a well-formed measurement:
score it, push it, query the best zone, respond. -/
theorem handleMeasurement_valid (env : Env) (uid : String)
    (d : MeasurementData) (ms : List Meas) (la lo r s c : ℚ)
    (hla : d.latitude = some la) (hlo : d.longitude = some lo)
    (hrk : d.rsrq = some r) (hsk : d.sinr = some s) (hck : d.cqi = some c)
    (h1 : -90 ≤ la) (h2 : la ≤ 90) (h3 : -180 ≤ lo) (h4 : lo ≤ 180)
    (hr1 : -20 ≤ r) (hr2 : r ≤ -3) (hs1 : -10 ≤ s) (hs2 : s ≤ 30)
    (hc1 : 0 ≤ c) (hc2 : c ≤ 15) :
    handleMeasurement env uid d ms =
      .ok (ms ++ [measOf env d la lo r s c],
           [.measurementResponse (rawScore r s c)
              (generateHumanMessage (rawScore r s c) r s c)
              (bzFieldOf (findBestNearbyZone env uid la lo).1)
              { rsrq := r, sinr := s, cqi := c,
                downloadSpeed := jsOrQ d.downloadSpeed 0,
                uploadSpeed := jsOrQ d.uploadSpeed 0 }],
           (findBestNearbyZone env uid la lo).2) := by
  have hv : isValidCoordinate (some la) (some lo) = true := by
    unfold isValidCoordinate
    exact decide_eq_true ⟨h1, h2, h3, h4⟩
  have e1 : jsLtO (some r) (-20) = false := by
    unfold jsLtO; exact decide_eq_false (not_lt.mpr hr1)
  have e2 : jsGtO (some r) (-3) = false := by
    unfold jsGtO; exact decide_eq_false (not_lt.mpr hr2)
  have e3 : jsLtO (some s) (-10) = false := by
    unfold jsLtO; exact decide_eq_false (not_lt.mpr hs1)
  have e4 : jsGtO (some s) 30 = false := by
    unfold jsGtO; exact decide_eq_false (not_lt.mpr hs2)
  have e5 : jsLtO (some c) 0 = false := by
    unfold jsLtO; exact decide_eq_false (not_lt.mpr hc1)
  have e6 : jsGtO (some c) 15 = false := by
    unfold jsGtO; exact decide_eq_false (not_lt.mpr hc2)
  have hq : calculateQualityScore (some r) (some s) (some c) =
      .ok (rawScore r s c) :=
    calculateQualityScore_ok r s c hr1 hr2 hs1 hs2 hc1 hc2
  simp [handleMeasurement, hla, hlo, hrk, hsk, hck,
    hv, e1, e2, e3, e4, e5, e6, hq, measOf]

/-- Behaviour of one authenticated `measurement` step with well-formed
input, in terms of the resolver's outcome. -/
theorem stepMeasurement_valid (env : Env) (st : SessionState) (uid : String)
    (d : MeasurementData) (la lo r s c : ℚ)
    (h0 : st.userId = some uid)
    (hla : d.latitude = some la) (hlo : d.longitude = some lo)
    (hrk : d.rsrq = some r) (hsk : d.sinr = some s) (hck : d.cqi = some c)
    (h1 : -90 ≤ la) (h2 : la ≤ 90) (h3 : -180 ≤ lo) (h4 : lo ≤ 180)
    (hr1 : -20 ≤ r) (hr2 : r ≤ -3) (hs1 : -10 ≤ s) (hs2 : s ≤ 30)
    (hc1 : 0 ≤ c) (hc2 : c ≤ 15) :
    stepMessage env st (.measurement d) =
      { state := { st with
          measurements := st.measurements ++ [measOf env d la lo r s c] },
        sent := [.measurementResponse (rawScore r s c)
                   (generateHumanMessage (rawScore r s c) r s c)
                   (bzFieldOf (findBestNearbyZone env uid la lo).1)
                   { rsrq := r, sinr := s, cqi := c,
                     downloadSpeed := jsOrQ d.downloadSpeed 0,
                     uploadSpeed := jsOrQ d.uploadSpeed 0 }],
        calls := (findBestNearbyZone env uid la lo).2,
        closeCode := none } := by
  obtain ⟨su, ms0, t0⟩ := st
  simp only at h0
  subst h0
  simp only [stepMessage]
  rw [handleMeasurement_valid env uid d ms0 la lo r s c hla hlo hrk hsk hck
    h1 h2 h3 h4 hr1 hr2 hs1 hs2 hc1 hc2]

/-! ## Claims -/

/-- C1: for every rsrq in [-20,-3], sinr in [-10,30], cqi in [0,15],
`calculateQualityScore(rsrq, sinr, cqi)` equals
`round(clamp(0.5*sinr + 0.3*((cqi/15)*100) - 0.2*|rsrq|, 0, 100))` and
is therefore an integer in [0,100]. -/
theorem C1_score_formula_and_range (r s c : ℚ)
    (hr1 : -20 ≤ r) (hr2 : r ≤ -3) (hs1 : -10 ≤ s) (hs2 : s ≤ 30)
    (hc1 : 0 ≤ c) (hc2 : c ≤ 15) :
    calculateQualityScore (some r) (some s) (some c) =
        .ok (scoreCellularSpec r s c) ∧
    0 ≤ scoreCellularSpec r s c ∧ scoreCellularSpec r s c ≤ 100 := by
  refine ⟨?_, ?_, ?_⟩
  · rw [calculateQualityScore_ok r s c hr1 hr2 hs1 hs2 hc1 hc2]
    unfold rawScore scoreCellularSpec
    have harg : s * (1/2) + c / 15 * 100 * (3/10) - |r| * (1/5) =
        1/2 * s + 3/10 * (c / 15 * 100) - 1/5 * |r| := by ring
    rw [harg]
  · exact jsRound_nonneg (le_max_left 0 _)
  · exact jsRound_le_of_le (max_le (by norm_num) (min_le_left 100 _))

/-- Witness for C1 at rsrq = −10, sinr = 20, cqi = 12 (score 32). -/
theorem C1_score_formula_and_range_witness :
    calculateQualityScore (some (-10)) (some 20) (some 12) =
        .ok (scoreCellularSpec (-10) 20 12) ∧
    0 ≤ scoreCellularSpec (-10) 20 12 ∧ scoreCellularSpec (-10) 20 12 ≤ 100 :=
  C1_score_formula_and_range (-10) 20 12 (by norm_num) (by norm_num)
    (by norm_num) (by norm_num) (by norm_num) (by norm_num)

/-- C4: `calculateQualityScore` is monotone on its valid domain —
increasing SINR never decreases the result, increasing CQI never
decreases the result, and moving RSRQ closer to 0 (decreasing |rsrq|)
never decreases the result, all other arguments fixed. -/
theorem C4_score_monotone :
    (∀ r s s' c : ℚ, -20 ≤ r → r ≤ -3 → -10 ≤ s → s ≤ s' → s' ≤ 30 →
        0 ≤ c → c ≤ 15 →
      okD (calculateQualityScore (some r) (some s) (some c)) ≤
        okD (calculateQualityScore (some r) (some s') (some c))) ∧
    (∀ r s c c' : ℚ, -20 ≤ r → r ≤ -3 → -10 ≤ s → s ≤ 30 →
        0 ≤ c → c ≤ c' → c' ≤ 15 →
      okD (calculateQualityScore (some r) (some s) (some c)) ≤
        okD (calculateQualityScore (some r) (some s) (some c'))) ∧
    (∀ r r' s c : ℚ, -20 ≤ r → r ≤ -3 → -20 ≤ r' → r' ≤ -3 →
        |r'| ≤ |r| → -10 ≤ s → s ≤ 30 → 0 ≤ c → c ≤ 15 →
      okD (calculateQualityScore (some r) (some s) (some c)) ≤
        okD (calculateQualityScore (some r') (some s) (some c))) := by
  refine ⟨?_, ?_, ?_⟩
  · intro r s s' c hr1 hr2 hs1 hss hs2 hc1 hc2
    rw [calculateQualityScore_ok r s c hr1 hr2 (by linarith) (by linarith) hc1 hc2,
        calculateQualityScore_ok r s' c hr1 hr2 (by linarith) (by linarith) hc1 hc2]
    simp only [okD]
    exact jsRound_mono (max_le_max le_rfl (min_le_min le_rfl (by linarith)))
  · intro r s c c' hr1 hr2 hs1 hs2 hc1 hcc hc2
    rw [calculateQualityScore_ok r s c hr1 hr2 hs1 hs2 (by linarith) (by linarith),
        calculateQualityScore_ok r s c' hr1 hr2 hs1 hs2 (by linarith) (by linarith)]
    simp only [okD]
    refine jsRound_mono (max_le_max le_rfl (min_le_min le_rfl ?_))
    have h1 : c / 15 * 100 * (3/10) = 2 * c := by ring
    have h2 : c' / 15 * 100 * (3/10) = 2 * c' := by ring
    linarith
  · intro r r' s c hr1 hr2 hr1' hr2' habs hs1 hs2 hc1 hc2
    rw [calculateQualityScore_ok r s c hr1 hr2 hs1 hs2 hc1 hc2,
        calculateQualityScore_ok r' s c hr1' hr2' hs1 hs2 hc1 hc2]
    simp only [okD]
    exact jsRound_mono (max_le_max le_rfl (min_le_min le_rfl (by linarith)))

/-- Witness for C4: SINR 0→10 at (−10,·,5); CQI 5→10 at (−10,0,·);
RSRQ −15→−5 at (·,0,5). -/
theorem C4_score_monotone_witness :
    okD (calculateQualityScore (some (-10)) (some 0) (some 5)) ≤
      okD (calculateQualityScore (some (-10)) (some 10) (some 5)) ∧
    okD (calculateQualityScore (some (-10)) (some 0) (some 5)) ≤
      okD (calculateQualityScore (some (-10)) (some 0) (some 10)) ∧
    okD (calculateQualityScore (some (-15)) (some 0) (some 5)) ≤
      okD (calculateQualityScore (some (-5)) (some 0) (some 5)) :=
  ⟨C4_score_monotone.1 (-10) 0 10 5 (by norm_num) (by norm_num) (by norm_num)
      (by norm_num) (by norm_num) (by norm_num) (by norm_num),
   C4_score_monotone.2.1 (-10) 0 5 10 (by norm_num) (by norm_num) (by norm_num)
      (by norm_num) (by norm_num) (by norm_num) (by norm_num),
   C4_score_monotone.2.2 (-15) (-5) 0 5 (by norm_num) (by norm_num)
      (by norm_num) (by norm_num) (by norm_num) (by norm_num) (by norm_num)
      (by norm_num) (by norm_num)⟩

/-- C5: `calculateQualityScore` fails with a domain error exactly when
some input is non-numeric or out of range — it succeeds iff all three
inputs are numbers with rsrq ∈ [-20,-3], sinr ∈ [-10,30], cqi ∈ [0,15];
in particular it fails for RSRQ = −25, SINR = 40, CQI = −1 and
CQI = 16. -/
theorem C5_score_domain_errors :
    (∀ ro so co : Option ℚ,
      isOkB (calculateQualityScore ro so co) = true ↔
        ∃ r s c, ro = some r ∧ so = some s ∧ co = some c ∧
          -20 ≤ r ∧ r ≤ -3 ∧ -10 ≤ s ∧ s ≤ 30 ∧ 0 ≤ c ∧ c ≤ 15) ∧
    isOkB (calculateQualityScore (some (-25)) (some 0) (some 8)) = false ∧
    isOkB (calculateQualityScore (some (-10)) (some 40) (some 8)) = false ∧
    isOkB (calculateQualityScore (some (-10)) (some 0) (some (-1))) = false ∧
    isOkB (calculateQualityScore (some (-10)) (some 0) (some 16)) = false := by
  refine ⟨?_, by decide, by decide, by decide, by decide⟩
  intro ro so co
  constructor
  · intro h
    rcases ro with _ | r <;> rcases so with _ | s <;> rcases co with _ | c <;>
        simp only [calculateQualityScore, isOkB] at h <;>
      first
        | exact absurd h (by decide)
        | skip
    split_ifs at h with h1 h2 h3
    push_neg at h1 h2 h3
    exact ⟨r, s, c, rfl, rfl, rfl, h1.1, h1.2, h2.1, h2.2, h3.1, h3.2⟩
  · rintro ⟨r, s, c, rfl, rfl, rfl, h1, h2, h3, h4, h5, h6⟩
    rw [calculateQualityScore_ok r s c h1 h2 h3 h4 h5 h6]
    rfl

/-- Witness for C5: an in-range triple succeeds. -/
theorem C5_score_domain_errors_witness :
    isOkB (calculateQualityScore (some (-10)) (some 20) (some 12)) = true :=
  (C5_score_domain_errors.1 (some (-10)) (some 20) (some 12)).mpr
    ⟨-10, 20, 12, rfl, rfl, rfl, by norm_num, by norm_num, by norm_num,
      by norm_num, by norm_num, by norm_num⟩

/-- C3: before authentication, any message that is not an
`authenticate` yields an error telling the client to authenticate first
and leaves the session unchanged and open; an `authenticate` whose
token fails verification yields an error response and closes the
connection with the distinct close code 4001. -/
theorem C3_auth_gate (env : Env) (st : SessionState) (hst : st.userId = none) :
    (∀ msg : ClientMsg, (∀ tk, msg ≠ .authenticate tk) →
      stepMessage env st msg =
        { state := st,
          sent := [.errorMsg
            "Please authenticate first by sending \x7b type: \"authenticate\", token: \"YOUR_JWT_TOKEN\" \x7d"],
          calls := [], closeCode := none }) ∧
    (∀ token e, authenticateClient env token = .error e →
      stepMessage env st (.authenticate token) =
        { state := st,
          sent := [.errorMsg (if e = "" then "Authentication failed" else e)],
          calls := [], closeCode := some 4001 }) := by
  constructor
  · intro msg hmsg
    cases msg with
    | authenticate tk => exact absurd rfl (hmsg tk)
    | measurement d => simp only [stepMessage, hst]
    | stop => simp only [stepMessage, hst]
    | ping => simp only [stepMessage, hst]
    | other ty => simp only [stepMessage, hst]
  · intro token e he
    simp only [stepMessage, hst, he]

/-- Witness for C3: a `ping` before authentication, then a failing
token. -/
theorem C3_auth_gate_witness :
    stepMessage envDemo stNew .ping =
      { state := stNew,
        sent := [.errorMsg
          "Please authenticate first by sending \x7b type: \"authenticate\", token: \"YOUR_JWT_TOKEN\" \x7d"],
        calls := [], closeCode := none } ∧
    stepMessage envDemo stNew (.authenticate (some "bad")) =
      { state := stNew,
        sent := [.errorMsg
          (if "User not found" = "" then "Authentication failed" else "User not found")],
        calls := [], closeCode := some 4001 } :=
  ⟨(C3_auth_gate envDemo stNew rfl).1 .ping (fun _ h => ClientMsg.noConfusion h),
   (C3_auth_gate envDemo stNew rfl).2 (some "bad") "User not found" rfl⟩

/-- C6: a `stop` arriving with an empty accumulator produces the
"No measurements recorded" error, makes no record-store call, and
leaves the session state unchanged with the connection open. -/
theorem C6_stop_empty (env : Env) (st : SessionState) (uid : String)
    (h1 : st.userId = some uid) (h2 : st.measurements = []) :
    stepMessage env st .stop =
      { state := st, sent := [.errorMsg "No measurements recorded"],
        calls := [], closeCode := none } := by
  obtain ⟨su, ms, t0⟩ := st
  simp only at h1 h2
  subst h1; subst h2
  simp [stepMessage, handleStop]

/-- Witness for C6: a stop on a fresh authenticated session. -/
theorem C6_stop_empty_witness :
    stepMessage envDemo stAuth .stop =
      { state := stAuth, sent := [.errorMsg "No measurements recorded"],
        calls := [], closeCode := none } :=
  C6_stop_empty envDemo stAuth "user1" rfl rfl

/-- C2 counterexample: with three accumulated measurements whose rsrq
values are −10, −10, −11, the emitted session summary's `averageRsrq`
is −10.33 (the mean rounded by `toFixed(2)`), which is not the
arithmetic mean −31/3 the claim requires. -/
theorem C2_counterexample :
    summaryAvgRsrq (stepMessage envDemo stThree .stop).sent =
        some (-1033/100) ∧
    ((-1033 : ℚ)/100) ≠ ((-10) + (-10) + (-11)) / 3 := by
  constructor
  · simp only [stepMessage, handleStop, stThree, m23, envDemo, summaryAvgRsrq,
      toDBRecord, jsToFixed2, jsRound]
    norm_num [Int.floor_eq_iff]
  · norm_num

/-- C2 (amended): a `stop` with n ≥ 1 accumulated measurements makes
exactly one batch insert containing exactly those n measurements and
emits one session summary whose `measurementCount` is n, whose
`averageQuality` is the mean quality rounded to the nearest integer,
and whose other average fields are the arithmetic means rounded to two
decimal digits; afterwards the accumulator is empty and the connection
stays open. -/
theorem C2_stop_flush_amended (env : Env) (st : SessionState) (uid : String)
    (saved : List DBRecord)
    (h1 : st.userId = some uid) (h2 : st.measurements ≠ [])
    (h3 : env.insertMany uid (st.measurements.map toDBRecord) = .ok saved) :
    stepMessage env st .stop =
      { state := { st with measurements := [] },
        sent := [.sessionSummary st.measurements.length
                   (jsRound ((env.now - st.startedAt) / 1000))
                   (jsRound (((st.measurements.map fun m => (m.qualityScore : ℚ)).sum) / st.measurements.length))
                   (jsToFixed2 (((st.measurements.map fun m => m.rsrq).sum) / st.measurements.length))
                   (jsToFixed2 (((st.measurements.map fun m => m.sinr).sum) / st.measurements.length))
                   (jsToFixed2 (((st.measurements.map fun m => m.cqi).sum) / st.measurements.length))
                   (jsToFixed2 (((st.measurements.map fun m => m.downloadSpeed).sum) / st.measurements.length))
                   (jsToFixed2 (((st.measurements.map fun m => m.uploadSpeed).sum) / st.measurements.length))
                   saved.length],
        calls := [.insertMany uid (st.measurements.map toDBRecord)],
        closeCode := none } := by
  obtain ⟨su, ms, t0⟩ := st
  simp only at h1 h2 h3 ⊢
  subst h1
  simp only [stepMessage, handleStop]
  rw [if_neg (by rw [List.length_eq_zero]; exact h2), h3]

/-- Witness for the amended C2: a stop on a one-measurement session. -/
theorem C2_stop_flush_amended_witness :
    stepMessage envDemo stOne .stop =
      { state := { stOne with measurements := [] },
        sent := [.sessionSummary stOne.measurements.length
                   (jsRound ((envDemo.now - stOne.startedAt) / 1000))
                   (jsRound (((stOne.measurements.map fun m => (m.qualityScore : ℚ)).sum) / stOne.measurements.length))
                   (jsToFixed2 (((stOne.measurements.map fun m => m.rsrq).sum) / stOne.measurements.length))
                   (jsToFixed2 (((stOne.measurements.map fun m => m.sinr).sum) / stOne.measurements.length))
                   (jsToFixed2 (((stOne.measurements.map fun m => m.cqi).sum) / stOne.measurements.length))
                   (jsToFixed2 (((stOne.measurements.map fun m => m.downloadSpeed).sum) / stOne.measurements.length))
                   (jsToFixed2 (((stOne.measurements.map fun m => m.uploadSpeed).sum) / stOne.measurements.length))
                   (stOne.measurements.map toDBRecord).length],
        calls := [.insertMany "user1" (stOne.measurements.map toDBRecord)],
        closeCode := none } :=
  C2_stop_flush_amended envDemo stOne "user1"
    (stOne.measurements.map toDBRecord) rfl (by decide) rfl

/-- C9 counterexample: with a record store that fails during the
best-zone lookup of a valid measurement event, the engine sends no
error response at all — the single sent message is a normal
measurement response — contradicting the claim that a store failure
during that lookup is surfaced as an error response. -/
theorem C9_counterexample :
    ((stepMessage envFailStore stAuth (.measurement dGood)).sent.all
        fun m => !isErrMsg m) = true ∧
    (stepMessage envFailStore stAuth (.measurement dGood)).sent.length = 1 ∧
    (stepMessage envFailStore stAuth (.measurement dGood)).closeCode = none := by
  rw [stepMeasurement_valid envFailStore stAuth "user1" dGood 0 0 (-10) 10 10
    rfl rfl rfl rfl rfl rfl (by norm_num) (by norm_num) (by norm_num)
    (by norm_num) (by norm_num) (by norm_num) (by norm_num) (by norm_num)
    (by norm_num) (by norm_num)]
  refine ⟨rfl, rfl, rfl⟩

/-- C9 (amended): a record-store failure during the batch persist on
`stop` is surfaced as an error response and the session stays alive;
a record-store failure during the best-zone lookup of a measurement
event is swallowed — the engine sends the normal measurement response
with `hasData:false` and no error — and the session stays alive. -/
theorem C9_store_failure_amended (env : Env) (st : SessionState)
    (uid : String) (e : String) :
    (st.userId = some uid → st.measurements ≠ [] →
      env.insertMany uid (st.measurements.map toDBRecord) = .error e →
      stepMessage env st .stop =
        { state := { st with measurements := [] },
          sent := [.errorMsg ("Failed to save measurements: " ++ e)],
          calls := [.insertMany uid (st.measurements.map toDBRecord)],
          closeCode := none }) ∧
    (∀ d : MeasurementData, ∀ la lo r s c : ℚ,
      st.userId = some uid →
      d.latitude = some la → d.longitude = some lo →
      d.rsrq = some r → d.sinr = some s → d.cqi = some c →
      -90 ≤ la → la ≤ 90 → -180 ≤ lo → lo ≤ 180 →
      -20 ≤ r → r ≤ -3 → -10 ≤ s → s ≤ 30 → 0 ≤ c → c ≤ 15 →
      env.findBestNearby uid la lo 5000 = .error e →
      stepMessage env st (.measurement d) =
        { state := { st with
            measurements := st.measurements ++ [measOf env d la lo r s c] },
          sent := [.measurementResponse (rawScore r s c)
                     (generateHumanMessage (rawScore r s c) r s c)
                     .noData
                     { rsrq := r, sinr := s, cqi := c,
                       downloadSpeed := jsOrQ d.downloadSpeed 0,
                       uploadSpeed := jsOrQ d.uploadSpeed 0 }],
          calls := [.findBestNearby uid la lo 5000],
          closeCode := none }) := by
  constructor
  · intro h1 h2 h3
    obtain ⟨su, ms, t0⟩ := st
    simp only at h1 h2 h3 ⊢
    subst h1
    simp only [stepMessage, handleStop]
    rw [if_neg (by rw [List.length_eq_zero]; exact h2), h3]
  · intro d la lo r s c h0 hla hlo hrk hsk hck h1 h2 h3 h4
      hr1 hr2 hs1 hs2 hc1 hc2 hfb
    have hbz : findBestNearbyZone env uid la lo =
        (none, [.findBestNearby uid la lo 5000]) := by
      unfold findBestNearbyZone; rw [hfb]
    rw [stepMeasurement_valid env st uid d la lo r s c h0 hla hlo hrk hsk hck
      h1 h2 h3 h4 hr1 hr2 hs1 hs2 hc1 hc2, hbz]
    rfl

/-- Witness for the amended C9: both store-failure scenarios with the
failing environment. -/
theorem C9_store_failure_amended_witness :
    stepMessage envFailStore stOne .stop =
      { state := { stOne with measurements := [] },
        sent := [.errorMsg "Failed to save measurements: db down"],
        calls := [.insertMany "user1" (stOne.measurements.map toDBRecord)],
        closeCode := none } ∧
    stepMessage envFailStore stAuth (.measurement dGood) =
      { state := { stAuth with
          measurements :=
            stAuth.measurements ++ [measOf envFailStore dGood 0 0 (-10) 10 10] },
        sent := [.measurementResponse (rawScore (-10) 10 10)
                   (generateHumanMessage (rawScore (-10) 10 10) (-10) 10 10)
                   .noData
                   { rsrq := -10, sinr := 10, cqi := 10,
                     downloadSpeed := jsOrQ dGood.downloadSpeed 0,
                     uploadSpeed := jsOrQ dGood.uploadSpeed 0 }],
        calls := [.findBestNearby "user1" 0 0 5000],
        closeCode := none } :=
  ⟨(C9_store_failure_amended envFailStore stOne "user1" "db down").1
      rfl (by decide) rfl,
   (C9_store_failure_amended envFailStore stAuth "user1" "db down").2
      dGood 0 0 (-10) 10 10 rfl rfl rfl rfl rfl rfl (by norm_num)
      (by norm_num) (by norm_num) (by norm_num) (by norm_num) (by norm_num)
      (by norm_num) (by norm_num) (by norm_num) (by norm_num) rfl⟩

/-- C10: a measurement message with a valid coordinate whose rsrq, sinr
or cqi is absent (with any present metric in range) passes the
radio-metric range validation — the specific "Invalid radio metrics"
error is not sent — and instead `calculateQualityScore`'s non-numeric
check throws, the catch-all emits "Failed to process message: ...", and
no measurement is appended to the accumulator. -/
theorem C10_missing_metric (env : Env) (st : SessionState) (uid : String)
    (d : MeasurementData)
    (h0 : st.userId = some uid)
    (hv : isValidCoordinate d.latitude d.longitude = true)
    (hrOk : ∀ x, d.rsrq = some x → -20 ≤ x ∧ x ≤ -3)
    (hsOk : ∀ x, d.sinr = some x → -10 ≤ x ∧ x ≤ 30)
    (hcOk : ∀ x, d.cqi = some x → 0 ≤ x ∧ x ≤ 15)
    (habs : d.rsrq = none ∨ d.sinr = none ∨ d.cqi = none) :
    stepMessage env st (.measurement d) =
      { state := st,
        sent := [.errorMsg
          "Failed to process message: Invalid radio metrics - must be numbers"],
        calls := [], closeCode := none } ∧
    ServerMsg.errorMsg "Invalid radio metrics" ∉
      (stepMessage env st (.measurement d)).sent := by
  obtain ⟨su, ms, t0⟩ := st
  simp only at h0
  subst h0
  have e1 : jsLtO d.rsrq (-20) = false := by
    cases hx : d.rsrq with
    | none => rfl
    | some x => unfold jsLtO; exact decide_eq_false (not_lt.mpr (hrOk x hx).1)
  have e2 : jsGtO d.rsrq (-3) = false := by
    cases hx : d.rsrq with
    | none => rfl
    | some x => unfold jsGtO; exact decide_eq_false (not_lt.mpr (hrOk x hx).2)
  have e3 : jsLtO d.sinr (-10) = false := by
    cases hx : d.sinr with
    | none => rfl
    | some x => unfold jsLtO; exact decide_eq_false (not_lt.mpr (hsOk x hx).1)
  have e4 : jsGtO d.sinr 30 = false := by
    cases hx : d.sinr with
    | none => rfl
    | some x => unfold jsGtO; exact decide_eq_false (not_lt.mpr (hsOk x hx).2)
  have e5 : jsLtO d.cqi 0 = false := by
    cases hx : d.cqi with
    | none => rfl
    | some x => unfold jsLtO; exact decide_eq_false (not_lt.mpr (hcOk x hx).1)
  have e6 : jsGtO d.cqi 15 = false := by
    cases hx : d.cqi with
    | none => rfl
    | some x => unfold jsGtO; exact decide_eq_false (not_lt.mpr (hcOk x hx).2)
  have hq : calculateQualityScore d.rsrq d.sinr d.cqi =
      .error "Invalid radio metrics - must be numbers" := by
    rcases habs with h | h | h
    · rw [h]; cases d.sinr <;> cases d.cqi <;> rfl
    · rw [h]; cases d.rsrq <;> cases d.cqi <;> rfl
    · rw [h]; cases d.rsrq <;> cases d.sinr <;> rfl
  have hm : handleMeasurement env uid d ms =
      .error "Invalid radio metrics - must be numbers" := by
    simp [handleMeasurement, hv, e1, e2, e3, e4, e5, e6, hq]
  have hstep : stepMessage env ⟨some uid, ms, t0⟩ (.measurement d) =
      { state := ⟨some uid, ms, t0⟩,
        sent := [.errorMsg
          "Failed to process message: Invalid radio metrics - must be numbers"],
        calls := [], closeCode := none } := by
    simp only [stepMessage]
    rw [hm]
    rfl
  exact ⟨hstep, by rw [hstep]; simp⟩

/-- Witness for C10: a measurement with a valid coordinate and an
absent rsrq field. -/
theorem C10_missing_metric_witness :
    (stepMessage envDemo stAuth (.measurement dNoRsrq) =
      { state := stAuth,
        sent := [.errorMsg
          "Failed to process message: Invalid radio metrics - must be numbers"],
        calls := [], closeCode := none } ∧
    ServerMsg.errorMsg "Invalid radio metrics" ∉
      (stepMessage envDemo stAuth (.measurement dNoRsrq)).sent) := by
  refine C10_missing_metric envDemo stAuth "user1" dNoRsrq rfl rfl ?_ ?_ ?_ ?_
  · intro x h
    simp [dNoRsrq, dGood] at h
  · intro x h
    simp only [dNoRsrq, dGood] at h
    cases h
    constructor <;> norm_num
  · intro x h
    simp only [dNoRsrq, dGood] at h
    cases h
    constructor <;> norm_num
  · exact Or.inl rfl

/-- C7: both best-zone resolvers report no data exactly as the record
store does, and when a match exists the returned `bearing` equals the
geodesy bearing from the current coordinate to the match's coordinate
while `distanceFormatted` equals the geodesy formatting of the distance
between those same two coordinates. -/
theorem C7_best_zone_consistency (env : Env) (uid : String)
    (la lo radius : ℚ) :
    (env.findBestNearby uid la lo (min radius 50000) = .ok none →
      (findBestZoneHelper env uid la lo radius).1 = .ok .noData) ∧
    (∀ rec : StoreRecord,
      env.findBestNearby uid la lo (min radius 50000) = .ok (some rec) →
      ∃ z : HttpFound,
        (findBestZoneHelper env uid la lo radius).1 = .ok (.found z) ∧
        z.bearing = env.calculateBearing la lo rec.lat rec.lon ∧
        z.distanceFormatted =
          formatDistance (env.calculateDistance la lo rec.lat rec.lon)) ∧
    (env.findBestNearby uid la lo 5000 = .ok none →
      (findBestNearbyZone env uid la lo).1 = none) ∧
    (∀ rec : StoreRecord,
      env.findBestNearby uid la lo 5000 = .ok (some rec) →
      ∃ bz : BestZone,
        (findBestNearbyZone env uid la lo).1 = some bz ∧
        bz.bearing = env.calculateBearing la lo rec.lat rec.lon ∧
        bz.distanceFormatted =
          formatDistance (env.calculateDistance la lo rec.lat rec.lon)) := by
  refine ⟨?_, ?_, ?_, ?_⟩
  · intro h; simp only [findBestZoneHelper, h]
  · intro rec h; simp only [findBestZoneHelper, h]
    exact ⟨_, rfl, rfl, rfl⟩
  · intro h; simp only [findBestNearbyZone, h]
  · intro rec h; simp only [findBestNearbyZone, h]
    exact ⟨_, rfl, rfl, rfl⟩

/-- Witness for C7: the empty and non-empty record stores on both
paths. -/
theorem C7_best_zone_consistency_witness :
    (findBestZoneHelper envEmptyStore "user1" 0 0 5000).1 = .ok .noData ∧
    (∃ z : HttpFound,
      (findBestZoneHelper envDemo "user1" 0 0 5000).1 = .ok (.found z) ∧
      z.bearing = envDemo.calculateBearing 0 0 demoRecord.lat demoRecord.lon ∧
      z.distanceFormatted =
        formatDistance (envDemo.calculateDistance 0 0 demoRecord.lat demoRecord.lon)) ∧
    (findBestNearbyZone envEmptyStore "user1" 0 0).1 = none ∧
    (∃ bz : BestZone,
      (findBestNearbyZone envDemo "user1" 0 0).1 = some bz ∧
      bz.bearing = envDemo.calculateBearing 0 0 demoRecord.lat demoRecord.lon ∧
      bz.distanceFormatted =
        formatDistance (envDemo.calculateDistance 0 0 demoRecord.lat demoRecord.lon)) :=
  ⟨(C7_best_zone_consistency envEmptyStore "user1" 0 0 5000).1 rfl,
   (C7_best_zone_consistency envDemo "user1" 0 0 5000).2.1 demoRecord rfl,
   (C7_best_zone_consistency envEmptyStore "user1" 0 0 5000).2.2.1 rfl,
   (C7_best_zone_consistency envDemo "user1" 0 0 5000).2.2.2 demoRecord rfl⟩

/-- C8 counterexample: with a match 250 m away at bearing 45° and
quality score 77, the session path's recommendation string is
"Move NE (45°) for better signal" — although the distance exceeds
100 m it contains neither the formatted distance "250 m" nor the word
"nearby", and it does not contain the quality score "77" either,
contradicting the claim that both resolver paths put the
nearby/distance clause and the qualityScore into the string. -/
theorem C8_counterexample :
    wsRecommendationOf (findBestNearbyZone envDemo "user1" 0 0).1 =
        some "Move NE (45°) for better signal" ∧
    (100 : ℚ) < envDemo.calculateDistance 0 0 demoRecord.lat demoRecord.lon ∧
    formatDistance (envDemo.calculateDistance 0 0 demoRecord.lat demoRecord.lon) =
        "250 m" ∧
    ¬ containsStr "Move NE (45°) for better signal" "250 m" ∧
    ¬ containsStr "Move NE (45°) for better signal" "nearby" ∧
    ¬ containsStr "Move NE (45°) for better signal" "77" := by
  have hdir : getCompassDirection 45 = "NE" := by
    unfold getCompassDirection compassLabels jsRound
    norm_num [Int.floor_eq_iff]
    rfl
  refine ⟨?_, by norm_num [envDemo], ?_, ?_, ?_, ?_⟩
  · simp only [findBestNearbyZone, envDemo, demoRecord, wsRecommendationOf, hdir]
    rfl
  · unfold formatDistance jsRound
    norm_num [Int.floor_eq_iff, envDemo]
    rfl
  · unfold containsStr; decide
  · unfold containsStr; decide
  · unfold containsStr; decide

/-- C8 (amended): when a match exists, the HTTP record path's
recommendation names the compass direction, the bearing in degrees, and
"nearby" when the distance is at most 100 m or the formatted distance
otherwise; the per-sample session path's recommendation names only the
compass direction and the bearing; in both paths the target
measurement's qualityScore is carried as a separate field of the
result, not inside the recommendation string. -/
theorem C8_recommendation_amended (env : Env) (uid : String)
    (la lo radius : ℚ) (rec : StoreRecord) :
    (env.findBestNearby uid la lo (min radius 50000) = .ok (some rec) →
      ∃ z : HttpFound,
        (findBestZoneHelper env uid la lo radius).1 = .ok (.found z) ∧
        z.qualityScore = rec.qualityScore ∧
        z.recommendation =
          "Move " ++
            getCompassDirection (env.calculateBearing la lo rec.lat rec.lon) ++
          " (" ++ toString (env.calculateBearing la lo rec.lat rec.lon) ++
          "Â°) for " ++
          (if 100 < env.calculateDistance la lo rec.lat rec.lon
           then formatDistance (env.calculateDistance la lo rec.lat rec.lon)
           else "nearby") ++ " better signal") ∧
    (env.findBestNearby uid la lo 5000 = .ok (some rec) →
      ∃ bz : BestZone,
        (findBestNearbyZone env uid la lo).1 = some bz ∧
        bz.qualityScore = rec.qualityScore ∧
        bz.recommendation =
          "Move " ++
            getCompassDirection (env.calculateBearing la lo rec.lat rec.lon) ++
          " (" ++ toString (env.calculateBearing la lo rec.lat rec.lon) ++
          "°) for better signal") := by
  constructor
  · intro h; simp only [findBestZoneHelper, h]
    exact ⟨_, rfl, rfl, by simp [String.append_assoc]⟩
  · intro h; simp only [findBestNearbyZone, h]
    exact ⟨_, rfl, rfl, by simp [String.append_assoc]⟩

/-- Witness for the amended C8: both paths against the demo store. -/
theorem C8_recommendation_amended_witness :
    (∃ z : HttpFound,
      (findBestZoneHelper envDemo "user1" 0 0 5000).1 = .ok (.found z) ∧
      z.qualityScore = demoRecord.qualityScore ∧
      z.recommendation =
        "Move " ++
          getCompassDirection (envDemo.calculateBearing 0 0 demoRecord.lat demoRecord.lon) ++
        " (" ++ toString (envDemo.calculateBearing 0 0 demoRecord.lat demoRecord.lon) ++
        "Â°) for " ++
        (if 100 < envDemo.calculateDistance 0 0 demoRecord.lat demoRecord.lon
         then formatDistance (envDemo.calculateDistance 0 0 demoRecord.lat demoRecord.lon)
         else "nearby") ++ " better signal") ∧
    (∃ bz : BestZone,
      (findBestNearbyZone envDemo "user1" 0 0).1 = some bz ∧
      bz.qualityScore = demoRecord.qualityScore ∧
      bz.recommendation =
        "Move " ++
          getCompassDirection (envDemo.calculateBearing 0 0 demoRecord.lat demoRecord.lon) ++
        " (" ++ toString (envDemo.calculateBearing 0 0 demoRecord.lat demoRecord.lon) ++
        "°) for better signal") :=
  ⟨(C8_recommendation_amended envDemo "user1" 0 0 5000 demoRecord).1 rfl,
   (C8_recommendation_amended envDemo "user1" 0 0 5000 demoRecord).2 rfl⟩

end NetVision
